import Mathlib

/-!
Verification of the heat-pump assembly script (src/main.py) against its
design specification (spec.md).

The script builds a closed-loop vapor-compression heat pump from five
components (cycle closer, evaporator, compressor, condenser, expansion
valve) joined by five connections, fixes a handful of scalar constraints,
and invokes the library solver.  The simulation engine itself (graph
validation, degree-of-freedom accounting, equation assembly, Newton
solver) is an external library and is not part of the repository source;
those parts are modelled here from the specification text, while the
concrete network, its connections and every user constraint are embedded
directly from src/main.py.  Numeric values are rationals.
-/

namespace Abwaerme

/-- Kinds of unit operations instantiated by the script (src/main.py lines 15-23). -/
inductive CompKind
  | cycleCloser
  | simpleHeatExchanger
  | valve
  | compressor
deriving DecidableEq

/-- A unit operation as constructed by the script: a kind and a label. -/
structure Component where
  kind : CompKind
  label : String
deriving DecidableEq

/-- Line 15: cc = CycleCloser('cycle closer'). -/
def cc : Component := ⟨.cycleCloser, "cycle closer"⟩

/-- Line 18: co = SimpleHeatExchanger('condensor'), the heat sink. -/
def co : Component := ⟨.simpleHeatExchanger, "condensor"⟩

/-- Line 20: ev = SimpleHeatExchanger('evaporater'), the heat source. -/
def ev : Component := ⟨.simpleHeatExchanger, "evaporater"⟩

/-- Line 22: va = Valve('expansion valve'). -/
def va : Component := ⟨.valve, "expansion valve"⟩

/-- Line 23: cp = Compressor('compressor'). -/
def cp : Component := ⟨.compressor, "compressor"⟩

/-- The five components of the plant. -/
def theComponents : List Component := [cc, co, ev, va, cp]

/-- A connection binds one outlet port of a source component to one inlet
port of a target component, as in tespy.connections.Connection. -/
structure Conn where
  source : String
  sourcePort : String
  target : String
  targetPort : String
  label : String
deriving DecidableEq

/-- Line 26: c1 = Connection(cc, 'out1', ev, 'in1', label='1'). -/
def c1 : Conn := ⟨"cycle closer", "out1", "evaporater", "in1", "1"⟩

/-- Line 27: c2 = Connection(ev, 'out1', cp, 'in1', label='2'). -/
def c2 : Conn := ⟨"evaporater", "out1", "compressor", "in1", "2"⟩

/-- Line 28: c3 = Connection(cp, 'out1', co, 'in1', label='3'). -/
def c3 : Conn := ⟨"compressor", "out1", "condensor", "in1", "3"⟩

/-- Line 29: c4 = Connection(co, 'out1', va, 'in1', label='4'). -/
def c4 : Conn := ⟨"condensor", "out1", "expansion valve", "in1", "4"⟩

/-- Line 30: c0 = Connection(va, 'out1', cc, 'in1', label='0'). -/
def c0 : Conn := ⟨"expansion valve", "out1", "cycle closer", "in1", "0"⟩

/-- Line 33: my_plant.add_conns(c0, c1, c2, c3, c4), in call order. -/
def theConns : List Conn := [c0, c1, c2, c3, c4]

/-- Every component kind used by the script has exactly one inlet port. -/
def inletPorts (_ : CompKind) : List String := ["in1"]

/-- Every component kind used by the script has exactly one outlet port. -/
def outletPorts (_ : CompKind) : List String := ["out1"]

/-- Number of connections attached to a given inlet port of a component. -/
def inletUses (conns : List Conn) (comp : Component) (port : String) : Nat :=
  (conns.filter (fun c => c.target = comp.label && c.targetPort = port)).length

/-- Number of connections attached to a given outlet port of a component. -/
def outletUses (conns : List Conn) (comp : Component) (port : String) : Nat :=
  (conns.filter (fun c => c.source = comp.label && c.sourcePort = port)).length

/-- Modelled from the spec: validateTopology's open-port check (spec 4.1,
the library side is not in src/): every inlet and outlet port of every
component is attached to exactly one connection. -/
def noOpenPorts (comps : List Component) (conns : List Conn) : Bool :=
  comps.all (fun comp =>
    (inletPorts comp.kind).all (fun port => inletUses conns comp port == 1) &&
    (outletPorts comp.kind).all (fun port => outletUses conns comp port == 1))

/-- Undirected adjacency induced by the connections: one expansion step of
a frontier of component labels. -/
def growFrontier (conns : List Conn) (seen : List String) : List String :=
  conns.foldl (fun acc c =>
    if acc.contains c.source && !acc.contains c.target then c.target :: acc
    else if acc.contains c.target && !acc.contains c.source then c.source :: acc
    else acc) seen

/-- Labels reachable (undirectedly) from a start label in at most n expansion rounds. -/
def reachableFrom (conns : List Conn) (start : String) : Nat → List String
  | 0 => [start]
  | n + 1 => growFrontier conns (reachableFrom conns start n)

/-- Modelled from the spec: validateTopology's connectivity check (spec 4.1):
the graph is a single connected component. -/
def singleComponent (comps : List Component) (conns : List Conn) : Bool :=
  match comps with
  | [] => true
  | first :: _ =>
      comps.all (fun comp =>
        (reachableFrom conns first.label comps.length).contains comp.label)

/-- Directed edges of the traversal graph with the cycle closer split into
a source half and a sink half, so the physically closed loop reads as a
chain (spec 3, NetworkGraph invariant).  An endpoint at the cycle closer
is renamed according to its role. -/
def splitEndpoints (closerLabel : String) (c : Conn) : String × String :=
  (if c.source = closerLabel then closerLabel ++ ".source" else c.source,
   if c.target = closerLabel then closerLabel ++ ".sink" else c.target)

/-- One step of directed reachability over the split traversal graph. -/
def growDirected (closerLabel : String) (conns : List Conn) (seen : List String) :
    List String :=
  conns.foldl (fun acc c =>
    let e := splitEndpoints closerLabel c
    if acc.contains e.1 && !acc.contains e.2 then e.2 :: acc else acc) seen

/-- Labels directedly reachable from a start node of the split graph in at
most n steps. -/
def reachableDirected (closerLabel : String) (conns : List Conn) (start : String) :
    Nat → List String
  | 0 => [start]
  | n + 1 => growDirected closerLabel conns (reachableDirected closerLabel conns start n)

/-- Nodes of the split traversal graph. -/
def splitNodes (closerLabel : String) (conns : List Conn) : List String :=
  conns.foldl (fun acc c =>
    let e := splitEndpoints closerLabel c
    let acc1 := if acc.contains e.1 then acc else e.1 :: acc
    if acc1.contains e.2 then acc1 else e.2 :: acc1) []

/-- The split traversal graph has no directed cycle: no node is reachable
from itself through at least one edge. -/
def splitGraphAcyclic (closerLabel : String) (conns : List Conn) : Bool :=
  (splitNodes closerLabel conns).all (fun v =>
    !(conns.any (fun c =>
      let e := splitEndpoints closerLabel c
      e.1 == v &&
        (v == e.2 ||
          (reachableDirected closerLabel conns e.2 (conns.length + 1)).contains v))))

/-- Component parameters the script can fix: pressure ratio, heat duty,
isentropic efficiency. -/
inductive CompParam
  | pr
  | Q
  | eta_s
deriving DecidableEq

/-- Connection parameters the script can fix: temperature, vapor quality,
fluid composition. -/
inductive ConnParam
  | T
  | x
  | fluid
deriving DecidableEq

/-- Lines 36-38: co.set_attr(pr=0.98, Q=-1000); ev.set_attr(pr=0.98);
cp.set_attr(eta_s=0.85). -/
def compParamSettings : List (String × CompParam × ℚ) :=
  [("condensor", .pr, 98/100), ("condensor", .Q, -1000),
   ("evaporater", .pr, 98/100), ("compressor", .eta_s, 85/100)]

/-- Lines 40-41: c2.set_attr(T=20, x=1, fluid is pure R134a);
c4.set_attr(T=80, x=0). -/
def connParamSettings : List (String × ConnParam × ℚ) :=
  [("2", .T, 20), ("2", .x, 1), ("2", .fluid, 1), ("4", .T, 80), ("4", .x, 0)]

/-- The plant runs on the single fluid R134a (line 40). -/
def nFluids : Nat := 1

/-- Modelled from the spec: the equations each unit operation always
supplies (spec 4.2; the library side is not in src/).  Every operation
conserves mass flow and per-fluid composition; a simple heat exchanger
adds a pressure-ratio and an energy-balance equation, a compressor an
isentropic-efficiency and a power equation, a valve an isenthalpic
equation.  For the cycle closer, spec 4.2 lists mass, composition and
both pressure and enthalpy continuity equations; the flag selects between
that literal reading (true) and a closer supplying only the pressure and
enthalpy continuity (false). -/
def localEquationCount (ccConserves : Bool) : CompKind → Nat
  | .simpleHeatExchanger => (1 + nFluids) + 2
  | .compressor => (1 + nFluids) + 2
  | .valve => (1 + nFluids) + 1
  | .cycleCloser => (if ccConserves then 1 + nFluids else 0) + 2

/-- Modelled from the spec: component parameters (spec 3, UnitOperation):
a simple heat exchanger carries pr and Q, a compressor eta_s and P; the
valve and the cycle closer carry none. -/
def paramCount : CompKind → Nat
  | .simpleHeatExchanger => 2
  | .compressor => 2
  | .valve => 0
  | .cycleCloser => 0

/-- Modelled from the spec: unknown scalars per stream (spec 3, Stream):
pressure, enthalpy, mass flow, and one mass fraction per fluid. -/
def streamVarCount : Nat := 3 + nFluids

/-- Modelled from the spec: total unknowns of the solve (spec 3,
degree-of-freedom counter): stream variables over all connections plus
all component parameters. -/
def totalUnknowns : Nat :=
  theConns.length * streamVarCount +
    (theComponents.map (fun comp => paramCount comp.kind)).sum

/-- Equations contributed by one explicit connection constraint: a fluid
composition pin gives one equation per fluid, a temperature or quality
pin one equation. -/
def connParamEquations : ConnParam → Nat
  | .T => 1
  | .x => 1
  | .fluid => nFluids

/-- Modelled from the spec: total residual equations (spec 4.3): every
operation's local equations plus every explicit user constraint, and
nothing else. -/
def totalEquations (ccConserves : Bool) : Nat :=
  (theComponents.map (fun comp => localEquationCount ccConserves comp.kind)).sum +
    (compParamSettings.length +
      (connParamSettings.map (fun s => connParamEquations s.2.1)).sum)

/-- Modelled from the spec: the degree-of-freedom tally (spec 3):
equations minus unknowns; zero iff the problem is well-posed. -/
def dofTally (ccConserves : Bool) : Int :=
  (totalEquations ccConserves : Int) - (totalUnknowns : Int)

/-- Thermodynamic state of one stream: mass flow, pressure, enthalpy and
the R134a mass fraction. -/
structure StreamState where
  m : ℚ
  p : ℚ
  h : ℚ
  frac : ℚ
deriving DecidableEq

/-- The stream variable store of the plant: one state per connection,
plus the component parameters of the two heat exchangers and the
compressor. -/
structure PlantVars where
  s0 : StreamState
  s1 : StreamState
  s2 : StreamState
  s3 : StreamState
  s4 : StreamState
  co_pr : ℚ
  co_Q : ℚ
  ev_pr : ℚ
  ev_Q : ℚ
  cp_eta : ℚ
  cp_P : ℚ
deriving DecidableEq

/-- Modelled from the spec: the opaque property service (spec 2 and 6):
temperature, vapor quality and entropy from a pressure-enthalpy pair, and
enthalpy from a pressure-entropy pair, for the single working fluid. -/
structure PropertyProvider where
  T_ph : ℚ → ℚ → ℚ
  x_ph : ℚ → ℚ → ℚ
  s_ph : ℚ → ℚ → ℚ
  h_ps : ℚ → ℚ → ℚ

/-- Modelled from the spec: the assembled residual vector for the script's
plant (spec 4.2 and 4.3; the assembler itself is not in src/), with the
condenser duty target as a parameter: the local equations of the cycle
closer (in c0, out c1), evaporator (in c1, out c2), compressor (in c2,
out c3), condenser (in c3, out c4) and valve (in c4, out c0), followed by
the user constraints of lines 36-41. -/
def residualsWithDuty (duty : ℚ) (pp : PropertyProvider) (st : PlantVars) : List ℚ :=
  [st.s0.m - st.s1.m, st.s0.frac - st.s1.frac,
   st.s0.p - st.s1.p, st.s0.h - st.s1.h,
   st.s1.m - st.s2.m, st.s1.frac - st.s2.frac,
   st.s2.p - st.ev_pr * st.s1.p,
   st.ev_Q - st.s1.m * (st.s2.h - st.s1.h),
   st.s2.m - st.s3.m, st.s2.frac - st.s3.frac,
   st.cp_eta * (st.s3.h - st.s2.h) -
     (pp.h_ps st.s3.p (pp.s_ph st.s2.p st.s2.h) - st.s2.h),
   st.cp_P - st.s2.m * (st.s3.h - st.s2.h),
   st.s3.m - st.s4.m, st.s3.frac - st.s4.frac,
   st.s4.p - st.co_pr * st.s3.p,
   st.co_Q - st.s3.m * (st.s4.h - st.s3.h),
   st.s4.m - st.s0.m, st.s4.frac - st.s0.frac,
   st.s0.h - st.s4.h,
   st.co_pr - 98/100, st.co_Q - duty,
   st.ev_pr - 98/100, st.cp_eta - 85/100,
   pp.T_ph st.s2.p st.s2.h - 20, pp.x_ph st.s2.p st.s2.h - 1,
   st.s2.frac - 1,
   pp.T_ph st.s4.p st.s4.h - 80, pp.x_ph st.s4.p st.s4.h - 0]

/-- The residual vector of the script as written: line 36 fixes the
condenser duty at Q = -1000. -/
def residuals (pp : PropertyProvider) (st : PlantVars) : List ℚ :=
  residualsWithDuty (-1000) pp st

/-- The residual vector under the perturbation of claim C2: line 36 with
Q = +1000 and every other constraint unchanged. -/
def residualsPerturbed (pp : PropertyProvider) (st : PlantVars) : List ℚ :=
  residualsWithDuty 1000 pp st

/-- A store at which every assembled residual vanishes: the idealized
converged state of the design solve. -/
def residualsVanish (pp : PropertyProvider) (st : PlantVars) : Prop :=
  ∀ r ∈ residuals pp st, r = 0

/-- Failure modes of a solve attempt (spec 7): configuration error,
well-posedness error, divergence, iteration budget exhausted, property
domain error. -/
inductive SolveError
  | configuration
  | wellPosedness
  | diverged
  | maxIterations
  | propertyDomain
deriving DecidableEq

/-- Sum-of-absolute-values norm of a residual vector. -/
def residualNorm (rs : List ℚ) : ℚ := (rs.map (fun r => |r|)).sum

/-- Iteration budget and convergence tolerance of the solver (spec 4.4). -/
structure SolverConfig where
  maxIter : Nat
  tol : ℚ
deriving DecidableEq

/-- Modelled from the spec: the solver's iteration loop (spec 4.4; the
library solver is not in src/).  Starting from the current iterate, each
round first tests convergence of the residual norm, then lets the Newton
step produce the next iterate; the step may instead signal divergence or
a failed property query.  An exhausted budget ends in MaxIterationsExceeded. -/
def solveLoop (pp : PropertyProvider) (step : PlantVars → Except SolveError PlantVars)
    (tol : ℚ) : Nat → PlantVars → Except SolveError PlantVars
  | 0, _ => .error .maxIterations
  | n + 1, x =>
      if residualNorm (residuals pp x) ≤ tol then .ok x
      else
        match step x with
        | .error e => .error e
        | .ok x1 => solveLoop pp step tol n x1

/-- Modelled from the spec: one solve attempt (spec 4.4 and 7): the
configuration check and the well-posedness check run before any
iteration; only then does the loop start from the store's current values. -/
def solveAttempt (configOK wellPosed : Bool) (pp : PropertyProvider)
    (step : PlantVars → Except SolveError PlantVars) (cfg : SolverConfig)
    (store : PlantVars) : Except SolveError PlantVars :=
  if !configOK then .error .configuration
  else if !wellPosed then .error .wellPosedness
  else solveLoop pp step cfg.tol cfg.maxIter store

/-- Modelled from the spec: a solve invocation as seen by the caller
(spec 4.4 and 7): on convergence the solved values are written back to
the store; on any failure the error is surfaced and the store keeps its
last valid values. -/
def solveCall (configOK wellPosed : Bool) (pp : PropertyProvider)
    (step : PlantVars → Except SolveError PlantVars) (cfg : SolverConfig)
    (store : PlantVars) : Except SolveError PlantVars × PlantVars :=
  match solveAttempt configOK wellPosed pp step cfg store with
  | .ok s => (.ok s, s)
  | .error e => (.error e, store)

/-- Runtime failures of the script itself: Python's ZeroDivisionError at
line 46, or an uncaught solver failure at line 43. -/
inductive PyError
  | zeroDivision
  | solveFailed (e : SolveError)
deriving DecidableEq

/-- Line 46 of src/main.py: the expression abs(co.Q.val) / cp.P.val,
with Python division semantics: dividing by zero raises. -/
def copLine (q p : ℚ) : Except PyError ℚ :=
  if p = 0 then .error .zeroDivision else .ok (|q| / p)

/-- The COP value of a solved store, abs(co.Q.val) / cp.P.val (line 46). -/
def copValue (st : PlantVars) : ℚ := |st.co_Q| / st.cp_P

/-- One line of program output: the results table of line 44, or the COP
line of line 46 carrying the printed value and whether the line flags the
value as physically invalid. -/
inductive OutputEvent
  | resultsTable
  | copPrinted (value : ℚ) (flaggedInvalid : Bool)
deriving DecidableEq

/-- Lines 44-46 of src/main.py: print_results, then the COP line.  The
f-string of line 46 prints the bare quotient; it carries no
physical-validity flag. -/
def scriptOutput (st : PlantVars) : Except PyError (List OutputEvent) :=
  match copLine st.co_Q st.cp_P with
  | .ok v => .ok [.resultsTable, .copPrinted v false]
  | .error e => .error e

/-- Modelled from the spec: the configuration-error taxonomy (spec 7):
duplicate labels, unconnected ports, disconnected graph.  These checks
inspect only the labels and the port bindings, never a numeric parameter
value. -/
inductive ConfigError
  | duplicateLabel
  | openPort
  | disconnected
deriving DecidableEq

/-- Whether two registered components share a label. -/
def duplicateLabels (comps : List Component) : Bool :=
  comps.any (fun a => 1 < (comps.filter (fun b => b.label == a.label)).length)

/-- Modelled from the spec: the configuration errors raised before any
numerical work (spec 4.1 and 7).  The function takes only the components
and the connections: a component parameter such as the condenser duty is
not an input of these checks. -/
def configurationErrors (comps : List Component) (conns : List Conn) :
    List ConfigError :=
  (if duplicateLabels comps then [ConfigError.duplicateLabel] else []) ++
    (if !noOpenPorts comps conns then [ConfigError.openPort] else []) ++
      (if !singleComponent comps conns then [ConfigError.disconnected] else [])

/-- Configuration state of the plant after construction: the registered
components, the registered connections with their port bindings, and the
recorded parameter settings. -/
structure PlantConfig where
  comps : List Component
  conns : List Conn
  compSettings : List (String × CompParam × ℚ)
  connSettings : List (String × ConnParam × ℚ)
deriving DecidableEq

/-- The plant right after line 33 (add_conns), before any set_attr call. -/
def afterAddConns : PlantConfig :=
  ⟨theComponents, theConns, [], []⟩

/-- Modelled from the spec: setOperationParams (spec 6) records a
component parameter value and touches nothing else. -/
def setOperationParam (plant : PlantConfig) (lbl : String) (param : CompParam)
    (v : ℚ) : PlantConfig :=
  { plant with compSettings := plant.compSettings ++ [(lbl, param, v)] }

/-- Modelled from the spec: setStreamParams (spec 6) records a connection
parameter value and touches nothing else. -/
def setStreamParam (plant : PlantConfig) (lbl : String) (param : ConnParam)
    (v : ℚ) : PlantConfig :=
  { plant with connSettings := plant.connSettings ++ [(lbl, param, v)] }

/-- Lines 36-41 of src/main.py: the set_attr calls of the script, in
program order. -/
def configure (plant : PlantConfig) : PlantConfig :=
  let p1 := setOperationParam plant "condensor" .pr (98/100)
  let p2 := setOperationParam p1 "condensor" .Q (-1000)
  let p3 := setOperationParam p2 "evaporater" .pr (98/100)
  let p4 := setOperationParam p3 "compressor" .eta_s (85/100)
  let p5 := setStreamParam p4 "2" .T 20
  let p6 := setStreamParam p5 "2" .x 1
  let p7 := setStreamParam p6 "2" .fluid 1
  let p8 := setStreamParam p7 "4" .T 80
  let p9 := setStreamParam p8 "4" .x 0
  p9

/-- The topology of a plant configuration: its components and its
connections with their port bindings. -/
def topologyOf (plant : PlantConfig) : List Component × List Conn :=
  (plant.comps, plant.conns)

/-- The process environment a Python script could read: argv and stdin. -/
structure Environment where
  argv : List String
  stdin : String
deriving DecidableEq

/-- Result of one run of the script: the final plant configuration, the
solve outcome, the final stream variable store and the produced output. -/
structure RunResult where
  plant : PlantConfig
  outcome : Except SolveError PlantVars
  store : PlantVars
  output : Except PyError (List OutputEvent)

/-- The whole script as one function: build the plant (lines 8-33), apply
the constraints (lines 36-41), solve (line 43) and print (lines 44-46).
The library behavior (property provider, Newton step, solver limits,
initial store) is a parameter; the process environment is threaded
through but the script never reads argv or stdin. -/
def runScript (configOK wellPosed : Bool) (pp : PropertyProvider)
    (step : PlantVars → Except SolveError PlantVars) (cfg : SolverConfig)
    (initStore : PlantVars) (_env : Environment) : RunResult :=
  let plant := configure afterAddConns
  let solved := solveCall configOK wellPosed pp step cfg initStore
  { plant := plant
    outcome := solved.1
    store := solved.2
    output :=
      match solved.1 with
      | .ok s => scriptOutput s
      | .error e => .error (.solveFailed e) }

/-- A concrete instantiation of the opaque property service, used to
witness the converged-state theorems: temperature and entropy read the
enthalpy coordinate, quality reads the pressure coordinate, and the
isentropic enthalpy adds a constant offset. -/
def ppW : PropertyProvider :=
  ⟨fun _ h => h, fun p _ => p, fun _ h => h, fun _ s => s + 17⟩

/-- A concrete store at which every residual of the script's constraint
set vanishes under the provider ppW. -/
def stW : PlantVars :=
  ⟨⟨-25, 50/49, 80, 1⟩, ⟨-25, 50/49, 80, 1⟩, ⟨-25, 1, 20, 1⟩,
   ⟨-25, 0, 40, 1⟩, ⟨-25, 0, 80, 1⟩,
   49/50, -1000, 49/50, 1500, 17/20, -500⟩

/-- A concrete store at which every residual of the perturbed constraint
set of claim C2 (Q = +1000) vanishes under the provider ppW. -/
def stWP : PlantVars :=
  ⟨⟨25, 50/49, 80, 1⟩, ⟨25, 50/49, 80, 1⟩, ⟨25, 1, 20, 1⟩,
   ⟨25, 0, 40, 1⟩, ⟨25, 0, 80, 1⟩,
   49/50, 1000, 49/50, -1500, 17/20, 500⟩

/-- All 28 residuals of the script's constraint set vanish at the
concrete provider ppW and store stW. -/
theorem residuals_ppW_stW : residuals ppW stW = List.replicate 28 (0 : ℚ) := by
  simp only [residuals, residualsWithDuty, ppW, stW, List.replicate]
  norm_num

/-- The store stW is an idealized converged state under the provider ppW. -/
theorem residualsVanish_ppW_stW : residualsVanish ppW stW := by
  intro r hr
  rw [residuals_ppW_stW] at hr
  exact List.eq_of_mem_replicate hr

/-- The residual norm at the provider ppW and store stW is zero. -/
theorem residualNorm_ppW_stW : residualNorm (residuals ppW stW) = 0 := by
  rw [residuals_ppW_stW]
  simp [residualNorm]

/-- All 28 residuals of the perturbed constraint set of claim C2 vanish
at the concrete provider ppW and store stWP. -/
theorem residualsPerturbed_ppW_stWP :
    residualsPerturbed ppW stWP = List.replicate 28 (0 : ℚ) := by
  simp only [residualsPerturbed, residualsWithDuty, ppW, stWP, List.replicate]
  norm_num

/-- C4: the network graph built by the five connections of lines 26-33
has every inlet and outlet port of each of the five components attached
to exactly one connection, forms a single connected component, and its
traversal graph with the cycle closer split into its source and sink
roles is acyclic, so the physically closed loop reads as an acyclic chain
and the topology validation raises no OpenPortError and no
DisconnectedGraphError. -/
theorem topology_valid :
    noOpenPorts theComponents theConns = true ∧
    singleComponent theComponents theConns = true ∧
    splitGraphAcyclic cc.label theConns = true := by decide

/-- C3 counterexample: under the literal spec 4.2 reading of the cycle
closer, which supplies mass, composition, pressure and enthalpy
continuity equations, the script's constraint set yields two more
residual equations than unknowns, so the degree-of-freedom tally of the
assembled system is 2, not the 0 the claim asserts. -/
theorem dof_tally_spec_literal : dofTally true = 2 ∧ dofTally true ≠ 0 := by decide

/-- C3 (amended): with the cycle closer supplying only the pressure and
enthalpy continuity equations — its mass and composition continuity
dropped, since per-component conservation around the loop already chains
those quantities — the script's constraint set has exactly as many
residual equations as unknowns: the degree-of-freedom tally is zero, so
the design solve proceeds to iteration without a WellPosednessError. -/
theorem dof_tally_closing_zero : dofTally false = 0 := by decide

/-- C5: in any store at which the assembled residual vector of the design
solve vanishes — the idealized converged state — the condenser satisfies
p_out = 0.98 p_in across c3/c4, the evaporator satisfies
p_out = 0.98 p_in across c1/c2, and the condenser duty satisfies
Q = mdot (h_out - h_in) = -1000. -/
theorem converged_hx_equations (pp : PropertyProvider) (st : PlantVars)
    (hconv : residualsVanish pp st) :
    st.s4.p = 98/100 * st.s3.p ∧ st.s2.p = 98/100 * st.s1.p ∧
    st.co_Q = st.s3.m * (st.s4.h - st.s3.h) ∧ st.co_Q = -1000 := by
  have h1 : st.s4.p - st.co_pr * st.s3.p = 0 :=
    hconv _ (by simp [residuals, residualsWithDuty])
  have h2 : st.co_pr - 98/100 = 0 :=
    hconv _ (by simp [residuals, residualsWithDuty])
  have h3 : st.s2.p - st.ev_pr * st.s1.p = 0 :=
    hconv _ (by simp [residuals, residualsWithDuty])
  have h4 : st.ev_pr - 98/100 = 0 :=
    hconv _ (by simp [residuals, residualsWithDuty])
  have h5 : st.co_Q - st.s3.m * (st.s4.h - st.s3.h) = 0 :=
    hconv _ (by simp [residuals, residualsWithDuty])
  have h6 : st.co_Q - (-1000) = 0 :=
    hconv _ (by simp [residuals, residualsWithDuty])
  have hco : st.co_pr = 98/100 := by linarith
  have hev : st.ev_pr = 98/100 := by linarith
  have h1a : st.s4.p = st.co_pr * st.s3.p := by linarith
  have h3a : st.s2.p = st.ev_pr * st.s1.p := by linarith
  rw [hco] at h1a
  rw [hev] at h3a
  exact ⟨h1a, h3a, by linarith, by linarith⟩

/-- C5 witness: at the concrete provider ppW the store stW is an
idealized converged state, and there the condenser and evaporator
equations hold with the script's numbers. -/
theorem converged_hx_equations_witness :
    stW.s4.p = 98/100 * stW.s3.p ∧ stW.s2.p = 98/100 * stW.s1.p ∧
    stW.co_Q = stW.s3.m * (stW.s4.h - stW.s3.h) ∧ stW.co_Q = -1000 :=
  converged_hx_equations ppW stW residualsVanish_ppW_stW

/-- C6: every failure mode of the solve invoked by the script —
configuration, well-posedness, divergence, exhausted iteration budget or
property-domain error — is surfaced as the error of the call, never
swallowed, and the stream variable store returned by the call is exactly
the store's last valid state. -/
theorem solve_failure_preserves_store (configOK wellPosed : Bool)
    (pp : PropertyProvider) (step : PlantVars → Except SolveError PlantVars)
    (cfg : SolverConfig) (store : PlantVars) (e : SolveError)
    (hfail : solveAttempt configOK wellPosed pp step cfg store = Except.error e) :
    solveCall configOK wellPosed pp step cfg store = (Except.error e, store) := by
  simp [solveCall, hfail]

/-- C6 witness: a solve attempt failing its configuration check reports
the configuration error and leaves the store stW untouched. -/
theorem solve_failure_preserves_store_witness :
    solveCall false true ppW (fun s => Except.ok s) ⟨1, 0⟩ stW =
      (Except.error SolveError.configuration, stW) :=
  solve_failure_preserves_store false true ppW (fun s => Except.ok s) ⟨1, 0⟩ stW
    SolveError.configuration rfl

/-- C7: re-solving a network whose store already satisfies the
convergence test — the residual norm at the initial iterate is within
tolerance — converges immediately, returns the store unchanged, and in
particular reproduces the same printed COP. -/
theorem resolve_converged_idempotent (pp : PropertyProvider)
    (step : PlantVars → Except SolveError PlantVars) (cfg : SolverConfig)
    (store : PlantVars) (hiter : 0 < cfg.maxIter)
    (hconv : residualNorm (residuals pp store) ≤ cfg.tol) :
    solveCall true true pp step cfg store = (Except.ok store, store) ∧
    copValue (solveCall true true pp step cfg store).2 = copValue store := by
  obtain ⟨iters, tol⟩ := cfg
  cases iters with
  | zero => exact absurd hiter (by simp)
  | succ n =>
      have hA : solveAttempt true true pp step ⟨n + 1, tol⟩ store = Except.ok store := by
        simp [solveAttempt, solveLoop, hconv]
      refine ⟨by simp [solveCall, hA], by simp [solveCall, hA]⟩

/-- C7 witness: at the converged store stW under the provider ppW, a
re-solve with a one-iteration budget and zero tolerance converges
immediately with the store and the COP unchanged. -/
theorem resolve_converged_idempotent_witness :
    solveCall true true ppW (fun s => Except.ok s) ⟨1, 0⟩ stW = (Except.ok stW, stW) ∧
    copValue (solveCall true true ppW (fun s => Except.ok s) ⟨1, 0⟩ stW).2 = copValue stW :=
  resolve_converged_idempotent ppW (fun s => Except.ok s) ⟨1, 0⟩ stW
    (by decide) residualNorm_ppW_stW.le

/-- C8: line 46 evaluates abs(co.Q.val) / cp.P.val with no guard: when
the solved compressor power is zero the expression raises Python's
ZeroDivisionError, and it is well defined exactly under the precondition
that the power is nonzero. -/
theorem cop_division_guard (q p : ℚ) :
    (p = 0 → copLine q p = Except.error PyError.zeroDivision) ∧
    (p ≠ 0 → copLine q p = Except.ok (|q| / p)) := by
  constructor
  · intro hp
    simp [copLine, hp]
  · intro hp
    simp [copLine, hp]

/-- C8 witness: at Q = -1000 the COP line raises on power 0 and yields
500 on power 2. -/
theorem cop_division_guard_witness :
    copLine (-1000) 0 = Except.error PyError.zeroDivision ∧
    copLine (-1000) 2 = Except.ok 500 := by
  constructor
  · exact (cop_division_guard (-1000) 0).1 rfl
  · rw [(cop_division_guard (-1000) 2).2 (by norm_num)]
    norm_num

/-- C2 counterexample: with line 36 perturbed to Q = +1000 the
configuration checks still pass — they inspect only labels and port
bindings, which the perturbation does not touch — so no
ConfigurationError is raised; and at a store where every perturbed
residual vanishes under the provider ppW the script prints COP = 2, a
positive number, with no physical-validity flag.  Neither branch of the
claim's disjunction holds. -/
theorem duty_sign_counterexample :
    configurationErrors theComponents theConns = [] ∧
    residualsPerturbed ppW stWP = List.replicate 28 (0 : ℚ) ∧
    scriptOutput stWP =
      Except.ok [OutputEvent.resultsTable, OutputEvent.copPrinted 2 false] := by
  refine ⟨by decide, residualsPerturbed_ppW_stWP, ?_⟩
  simp [scriptOutput, copLine, stWP]
  norm_num

/-- C2 (amended): perturbing the duty sign convention raises no
ConfigurationError, since the configuration checks take only the
components and connections as input and those are unchanged; the script's
COP line never flags a value as physically invalid; and for any solved
store with nonzero duty and power, the printed COP is negative exactly
when the solved compressor power is negative. -/
theorem duty_sign_perturbation (st : PlantVars) (hQ : st.co_Q ≠ 0)
    (hP : st.cp_P ≠ 0) :
    configurationErrors theComponents theConns = [] ∧
    (∀ v b, scriptOutput st =
      Except.ok [OutputEvent.resultsTable, OutputEvent.copPrinted v b] → b = false) ∧
    (copValue st < 0 ↔ st.cp_P < 0) := by
  refine ⟨by decide, ?_, ?_⟩
  · intro v b h
    simp [scriptOutput, copLine, hP] at h
    exact h.2
  · rw [copValue, div_neg_iff]
    constructor
    · rintro (⟨h1, h2⟩ | ⟨h1, h2⟩)
      · exact h2
      · exact absurd h1 (not_lt.mpr (abs_nonneg _))
    · intro h
      exact Or.inl ⟨abs_pos.mpr hQ, h⟩

/-- C2 witness: at the perturbed converged store stWP the configuration
checks pass and the sign characterization of the printed COP holds. -/
theorem duty_sign_perturbation_witness :
    configurationErrors theComponents theConns = [] ∧
    (copValue stWP < 0 ↔ stWP.cp_P < 0) := by
  have hQ : stWP.co_Q ≠ 0 := by norm_num [stWP]
  have hP : stWP.cp_P ≠ 0 := by norm_num [stWP]
  exact ⟨(duty_sign_perturbation stWP hQ hP).1, (duty_sign_perturbation stWP hQ hP).2.2⟩

/-- C9: the script reads no external input: with the library behavior
fixed, a run does not depend on the process environment (argv, stdin),
so any two runs produce the same plant, the same solve outcome, the same
final store and the same printed output. -/
theorem script_deterministic (configOK wellPosed : Bool) (pp : PropertyProvider)
    (step : PlantVars → Except SolveError PlantVars) (cfg : SolverConfig)
    (store : PlantVars) (env1 env2 : Environment) :
    runScript configOK wellPosed pp step cfg store env1 =
      runScript configOK wellPosed pp step cfg store env2 := rfl

/-- C10: after add_conns on line 33 no later statement alters the network
topology: each set_attr call of lines 36-41 only appends a parameter
record, the configuration phase records exactly the script's settings,
and a whole run — construction, configuration, solve and printing —
leaves the component set, the connection set and every port binding
exactly as established on line 33. -/
theorem set_attr_preserves_topology :
    (∀ plant : PlantConfig, topologyOf (configure plant) = topologyOf plant) ∧
    (configure afterAddConns).compSettings = compParamSettings ∧
    (configure afterAddConns).connSettings = connParamSettings ∧
    (∀ (configOK wellPosed : Bool) (pp : PropertyProvider)
        (step : PlantVars → Except SolveError PlantVars) (cfg : SolverConfig)
        (store : PlantVars) (env : Environment),
      topologyOf (runScript configOK wellPosed pp step cfg store env).plant =
        topologyOf afterAddConns) := by
  refine ⟨?_, ?_, ?_, ?_⟩
  · intro plant
    simp [configure, setOperationParam, setStreamParam, topologyOf]
  · simp [configure, setOperationParam, setStreamParam, afterAddConns, compParamSettings]
  · simp [configure, setOperationParam, setStreamParam, afterAddConns, connParamSettings]
  · intro configOK wellPosed pp step cfg store env
    simp [runScript, configure, setOperationParam, setStreamParam, topologyOf]

end Abwaerme
